import Mathlib

/-
Verification of the cluster dispatcher, HTTP layer and streaming thumbnail
protocol of the Photoshop MCP Server repository.

The Lean definitions below are a shallow embedding of the Python sources:
  * photoshop_mcp_server/cluster/dispatcher.py  (ClusterDispatcher, Node, Job)
  * photoshop_mcp_server/server.py              (HTTP endpoints)
  * photoshop_mcp_server/bridge/uxp_backend.py  (generate_thumbnail_stream)

Modelling conventions:
  * Python float timestamps are modelled as Int (only their ordering matters
    to the verified properties).
  * Python dicts keyed by strings are modelled as association lists with
    first-match lookup and in-place update (alookup / aupdate / aremove).
  * Python sets of job ids are modelled as duplicate-free lists
    (setAdd adds only when absent, setRemove is List.erase).
  * The heapq priority queue is modelled as a list of keys; heappop removes
    a minimal element under the lexicographic key order, exactly the
    observable behaviour of heapq.heappop.
  * Fallible code is modelled with an explicit error component
    (an Option String carrying the raised exception).
-/

namespace PhotoshopMCP

/-- NodeStatus enum from dispatcher.py. -/
inductive NodeStatus where
  | unknown
  | healthy
  | degraded
  | unhealthy
deriving DecidableEq, Repr

/-- JobStatus enum from dispatcher.py. -/
inductive JobStatus where
  | queued
  | assigned
  | running
  | completed
  | failed
  | cancelled
deriving DecidableEq, Repr

/-- Node dataclass from dispatcher.py (the fields touched by the dispatcher
operations; latency_history is kept as a list of Int samples). -/
structure Node where
  node_id : String
  host : String
  port : Int
  capabilities : List String
  max_concurrent_jobs : Int
  status : NodeStatus := NodeStatus.unknown
  active_jobs : Int := 0
  completed_jobs : Int := 0
  failed_jobs : Int := 0
  last_heartbeat : Int := 0
  current_jobs : List String := []
deriving DecidableEq, Repr

/-- Node.is_available property: (HEALTHY or DEGRADED) and
active_jobs < max_concurrent_jobs. -/
def Node.is_available (n : Node) : Bool :=
  (decide (n.status = NodeStatus.healthy) || decide (n.status = NodeStatus.degraded))
    && decide (n.active_jobs < n.max_concurrent_jobs)

/-- Node.load_factor property: active_jobs / max_concurrent_jobs,
and 1.0 when max_concurrent_jobs = 0. -/
def Node.load_factor (n : Node) : Rat :=
  if n.max_concurrent_jobs = 0 then 1
  else (n.active_jobs : Rat) / (n.max_concurrent_jobs : Rat)

/-- Job dataclass from dispatcher.py.  The payload bytes are modelled as a
String.  Note: the dataclass has NO retry-counter field. -/
structure Job where
  job_id : String
  job_type : String
  payload : String
  priority : Int := 0
  status : JobStatus := JobStatus.queued
  created_at : Int := 0
  assigned_at : Option Int := none
  started_at : Option Int := none
  completed_at : Option Int := none
  assigned_node_id : Option String := none
  result : Option String := none
  error_message : Option String := none
  progress : Int := 0
  callback_url : Option String := none
deriving DecidableEq, Repr

/-- Queue keys pushed by the dispatcher:
(-job.priority, job.created_at, job.job_id). -/
def QKey : Type := Int × Int × String
deriving DecidableEq, Repr

/-- The key the dispatcher pushes for a job. -/
def jobKey (j : Job) : QKey := (-j.priority, j.created_at, j.job_id)

/-- Strict lexicographic order on queue keys, matching Python tuple
comparison of (int, float, str) triples. -/
def keyLtb (x y : QKey) : Bool :=
  decide (x.1 < y.1)
    || (decide (x.1 = y.1)
        && (decide (x.2.1 < y.2.1)
            || (decide (x.2.1 = y.2.1) && decide (x.2.2 < y.2.2))))

/-- heapq.heappop returns a minimal element of the heap; heapMin computes a
minimal key of the queue under keyLtb. -/
def heapMin : List QKey → Option QKey
  | [] => none
  | k :: ks =>
    match heapMin ks with
    | none => some k
    | some m => if keyLtb k m then some k else some m

/-- heapq.heappop: remove and return a minimal key. -/
def heappop (q : List QKey) : Option (QKey × List QKey) :=
  match heapMin q with
  | none => none
  | some m => some (m, q.erase m)

/-- Association-list lookup modelling Python dict lookup. -/
def alookup {α : Type} : List (String × α) → String → Option α
  | [], _ => none
  | (k, v) :: rest, key => if k = key then some v else alookup rest key

/-- Association-list update modelling Python dict assignment d[k] = v. -/
def aupdate {α : Type} : List (String × α) → String → α → List (String × α)
  | [], key, v => [(key, v)]
  | (k, w) :: rest, key, v =>
    if k = key then (key, v) :: rest else (k, w) :: aupdate rest key v

/-- Association-list removal modelling Python dict.pop(k, None). -/
def aremove {α : Type} : List (String × α) → String → List (String × α)
  | [], _ => []
  | (k, w) :: rest, key =>
    if k = key then aremove rest key else (k, w) :: aremove rest key

/-- Python set.add: insert only when absent. -/
def setAdd (x : String) (l : List String) : List String :=
  if x ∈ l then l else x :: l

/-- Python set.remove on a duplicate-free list. -/
def setRemove (x : String) (l : List String) : List String := l.erase x

/-- The mutable state of a ClusterDispatcher instance (the fields touched by
the modelled operations). -/
structure DispatcherState where
  nodes : List (String × Node)
  jobs : List (String × Job)
  job_queue : List QKey
  is_running : Bool
  total_jobs_processed : Int := 0
  total_jobs_failed : Int := 0
deriving DecidableEq, Repr

/-- One iteration of the loop body of ClusterDispatcher._requeue_node_jobs:
look the job up; when its status is ASSIGNED or RUNNING, set it back to
QUEUED, clear assigned_node_id / assigned_at / started_at, and heappush
(-priority, created_at, job_id).  There is no retry counter in the source:
the job is requeued unconditionally. -/
def requeue_one (s : DispatcherState) (jid : String) : DispatcherState :=
  match alookup s.jobs jid with
  | none => s
  | some job =>
    if job.status = JobStatus.assigned ∨ job.status = JobStatus.running then
      { s with
        jobs := aupdate s.jobs jid
          { job with status := JobStatus.queued, assigned_node_id := none,
                     assigned_at := none, started_at := none },
        job_queue := (-job.priority, job.created_at, jid) :: s.job_queue }
    else s

/-- ClusterDispatcher._requeue_node_jobs(node_id): iterate over a snapshot of
the node's current_jobs and requeue each ASSIGNED/RUNNING job.  The node's
current_jobs set and active_jobs counter are NOT touched. -/
def requeue_node_jobs (st : DispatcherState) (nid : String) : DispatcherState :=
  match alookup st.nodes nid with
  | none => st
  | some node => node.current_jobs.foldl requeue_one st

/-- ClusterDispatcher._assign_job_to_node(job, node).  The job becomes
ASSIGNED with assigned_node_id and assigned_at set; the node increments
active_jobs and adds the job id to current_jobs.  The `sendOk` flag models
whether the try-block around the send raises: on an exception the except
clause rolls the job back to QUEUED, decrements active_jobs (clamped at 0),
removes the id from current_jobs and heappushes the original key. -/
def assign_job_to_node (now : Int) (sendOk : Bool) (st : DispatcherState)
    (jid nid : String) : DispatcherState :=
  match alookup st.jobs jid, alookup st.nodes nid with
  | some job, some node =>
    let job1 := { job with status := JobStatus.assigned,
                           assigned_node_id := some nid, assigned_at := some now }
    let node1 := { node with active_jobs := node.active_jobs + 1,
                             current_jobs := setAdd jid node.current_jobs }
    let st1 := { st with jobs := aupdate st.jobs jid job1,
                         nodes := aupdate st.nodes nid node1 }
    if sendOk then st1
    else
      let job2 := { job1 with status := JobStatus.queued,
                              assigned_node_id := none, assigned_at := none }
      let node2 := { node1 with active_jobs := max 0 (node1.active_jobs - 1),
                                current_jobs := setRemove jid node1.current_jobs }
      { st1 with jobs := aupdate st1.jobs jid job2,
                 nodes := aupdate st1.nodes nid node2,
                 job_queue := (-job2.priority, job2.created_at, jid) :: st1.job_queue }
  | _, _ => st

/-- ClusterDispatcher._simulate_job_execution(job, node): the job runs
(RUNNING, started_at), then either COMPLETED (progress 100, result set) or
FAILED (error_message "Simulated failure"), after which the node decrements
active_jobs (clamped at 0) and removes the id from current_jobs. -/
def simulate_job_execution (success : Bool) (startT endT : Int)
    (execResult : String) (st : DispatcherState) (jid nid : String) :
    DispatcherState :=
  match alookup st.jobs jid, alookup st.nodes nid with
  | some job, some node =>
    let job1 := { job with status := JobStatus.running, started_at := some startT }
    let job2 :=
      if success then
        { job1 with status := JobStatus.completed, completed_at := some endT,
                    progress := 100, result := some execResult }
      else
        { job1 with status := JobStatus.failed, completed_at := some endT,
                    error_message := some "Simulated failure" }
    let node2 :=
      if success then { node with completed_jobs := node.completed_jobs + 1 }
      else { node with failed_jobs := node.failed_jobs + 1 }
    let node3 := { node2 with active_jobs := max 0 (node2.active_jobs - 1),
                              current_jobs := setRemove jid node2.current_jobs }
    { st with jobs := aupdate st.jobs jid job2,
              nodes := aupdate st.nodes nid node3,
              total_jobs_processed :=
                st.total_jobs_processed + (if success then 1 else 0),
              total_jobs_failed :=
                st.total_jobs_failed + (if success then 0 else 1) }
  | _, _ => st

/-- ClusterDispatcher._cleanup_old_jobs: drop terminal jobs whose
completed_at is truthy (Python: a timestamp of 0.0 is falsy and is kept)
and older than the 86400 s retention period. -/
def cleanup_old_jobs (now : Int) (st : DispatcherState) : DispatcherState :=
  { st with jobs := st.jobs.filter (fun p =>
      !((decide (p.2.status = JobStatus.completed)
          || decide (p.2.status = JobStatus.failed)
          || decide (p.2.status = JobStatus.cancelled))
        && (match p.2.completed_at with
            | some t => !(decide (t = 0)) && decide (now - t > 86400)
            | none => false))) }

/-- Loop body of the active ClusterDispatcher._cleanup_unhealthy_nodes
(the second definition in the file, lines 824-1031, which is the one Python
binds).  For each snapshot entry: when the node is UNHEALTHY the stale ones
(last heartbeat older than 3600 s) are popped from the registry, after
which the orphaned line `node.current_jobs.remove(job_id)` executes with
`job_id` unbound in that scope, raising NameError and aborting the pass. -/
def cleanup_unhealthy_nodes_go (now : Int) :
    List (String × Node) → DispatcherState → DispatcherState × Option String
  | [], s => (s, none)
  | (nid, node) :: rest, s =>
    if node.status = NodeStatus.unhealthy then
      let s1 :=
        if now - node.last_heartbeat > 3600 then
          { s with nodes := aremove s.nodes nid }
        else s
      (s1, some "NameError: name job_id is not defined")
    else cleanup_unhealthy_nodes_go now rest s

/-- ClusterDispatcher._cleanup_unhealthy_nodes (active definition):
returns the state after the pass together with the exception it raised,
if any. -/
def cleanup_unhealthy_nodes (now : Int) (st : DispatcherState) :
    DispatcherState × Option String :=
  cleanup_unhealthy_nodes_go now st.nodes st

/-- The per-job update performed by ClusterDispatcher.stop(): QUEUED,
ASSIGNED and RUNNING jobs become CANCELLED with completed_at = now and
error_message "Dispatcher shutdown"; terminal jobs are untouched. -/
def stopCancel (now : Int) (j : Job) : Job :=
  if j.status = JobStatus.queued ∨ j.status = JobStatus.assigned
      ∨ j.status = JobStatus.running then
    { j with status := JobStatus.cancelled, completed_at := some now,
             error_message := some "Dispatcher shutdown" }
  else j

/-- ClusterDispatcher.stop(): a no-op when the dispatcher is not running;
otherwise cancels every non-terminal job and clears is_running. -/
def dispatcherStop (now : Int) (st : DispatcherState) : DispatcherState :=
  if st.is_running = false then st
  else { st with jobs := st.jobs.map (fun p => (p.1, stopCancel now p.2)),
                 is_running := false }

/-- The available-node list computed by the dispatch loop:
[node for node in self.nodes.values() if node.is_available]. -/
def availableNodes (st : DispatcherState) : List Node :=
  (st.nodes.map Prod.snd).filter Node.is_available

/-- ClusterDispatcher._select_node under the default LEAST_BUSY routing
strategy (the DispatcherConfig default): Python min(available, key =
load_factor), which keeps the earliest node on ties. -/
def select_node (available : List Node) : Option Node :=
  match available with
  | [] => none
  | n :: ns =>
    some (ns.foldl (fun best x => if x.load_factor < best.load_factor then x else best) n)

/-- Continuation of one dispatch-loop iteration after the heappop: drop the
key when its job is gone or no longer QUEUED, otherwise assign the job to
the selected node (pushing the key back when no node is selected). -/
def dispatch_popped (now : Int) (st : DispatcherState) (k : QKey)
    (rest : List QKey) : DispatcherState :=
  let st1 := { st with job_queue := rest }
  match alookup st1.jobs k.2.2 with
  | none => st1
  | some job =>
    if job.status = JobStatus.queued then
      match select_node (availableNodes st) with
      | some n => assign_job_to_node now true st1 k.2.2 n.node_id
      | none =>
        { st1 with
          job_queue := (-job.priority, job.created_at, k.2.2) :: st1.job_queue }
    else st1

/-- One iteration of ClusterDispatcher._job_dispatcher_task with the default
LEAST_BUSY strategy: sleep (returning no key) when the queue or the
available-node set is empty; otherwise heappop the minimal key and continue
with dispatch_popped. -/
def job_dispatcher_step (now : Int) (st : DispatcherState) :
    Option QKey × DispatcherState :=
  if st.job_queue.isEmpty then (none, st)
  else if (availableNodes st).isEmpty then (none, st)
  else
    match heappop st.job_queue with
    | none => (none, st)
    | some (k, rest) => (some k, dispatch_popped now st k rest)

/-- The methods the ClusterDispatcher class body actually defines
(dispatcher.py; later duplicate definitions rebind the same names, and all
RPC service methods — RegisterNode, DispatchJob, GetJobStatus, CancelJob,
GetClusterStatus, … — are commented out). -/
def clusterDispatcherMethods : List String :=
  ["__init__", "start", "stop", "_health_check_task", "_check_node_health",
   "_requeue_node_jobs", "_select_node", "_assign_job_to_node",
   "_simulate_job_execution", "_cleanup_task", "_cleanup_old_jobs",
   "_cleanup_unhealthy_nodes", "_job_dispatcher_task"]

/-- Attribute lookup for `cluster_dispatcher.add_job` in server.py's
submit_job handler: the class defines no such method (see
clusterDispatcherMethods), so Python raises AttributeError. -/
def dispatcher_add_job : Option (DispatcherState → Job → DispatcherState) := none

/-- Attribute lookup for `cluster_dispatcher.cancel_job` in server.py's
cancel_job handler: the class defines no such method (see
clusterDispatcherMethods), so Python raises AttributeError. -/
def dispatcher_cancel_job :
    Option (DispatcherState → String → Bool × DispatcherState) := none

/-- JobRequest schema body of POST /submit_job. -/
structure JobRequest where
  job_type : String
  payload : String
  priority : Int := 0
  callback_url : Option String := none
deriving DecidableEq, Repr

/-- Result of a FastAPI handler: a JSON reply or an HTTPException. -/
inductive HttpOutcome (α : Type) where
  | ok (value : α)
  | httpError (statusCode : Int) (detail : String)
deriving DecidableEq, Repr

/-- The JSON body returned by POST /submit_job on success. -/
structure SubmitReply where
  job_id : String
  status : String
  message : String
deriving DecidableEq, Repr

/-- The JSON body returned by POST /cancel_job/{id} on success. -/
structure CancelReply where
  status : String
  message : String
deriving DecidableEq, Repr

/-- server.py submit_job handler (POST /submit_job): 400 when cluster mode
is off; otherwise build a Job from the request (created_at = now, the
freshly generated uuid as job_id) and call cluster_dispatcher.add_job.
The attribute is missing, so the except clause turns the AttributeError
into HTTP 500 and the dispatcher state is left untouched. -/
def submit_job (clusterEnabled : Bool) (st : DispatcherState)
    (req : JobRequest) (newJobId : String) (now : Int) :
    HttpOutcome SubmitReply × DispatcherState :=
  if clusterEnabled = false then
    (HttpOutcome.httpError 400 "Cluster mode is not enabled", st)
  else
    match dispatcher_add_job with
    | some addJob =>
      let job : Job :=
        { job_id := newJobId, job_type := req.job_type, payload := req.payload,
          priority := req.priority, created_at := now,
          callback_url := req.callback_url }
      (HttpOutcome.ok
          { job_id := newJobId, status := "queued",
            message := "Job " ++ newJobId ++ " submitted successfully" },
        addJob st job)
    | none =>
      (HttpOutcome.httpError 500
          "Error submitting job: ClusterDispatcher object has no attribute add_job",
        st)

/-- server.py cancel_job handler (POST /cancel_job/{id}): 400 when cluster
mode is off; otherwise call cluster_dispatcher.cancel_job and map a falsy
result to HTTP 404 "not found or already completed".  The attribute is
missing, so the except clause turns the AttributeError into HTTP 500. -/
def cancel_job (clusterEnabled : Bool) (st : DispatcherState)
    (jobId : String) : HttpOutcome CancelReply × DispatcherState :=
  if clusterEnabled = false then
    (HttpOutcome.httpError 400 "Cluster mode is not enabled", st)
  else
    match dispatcher_cancel_job with
    | some cancel =>
      let (success, st2) := cancel st jobId
      if success then
        (HttpOutcome.ok
            { status := "ok", message := "Job " ++ jobId ++ " cancelled successfully" },
          st2)
      else
        (HttpOutcome.httpError 404
            ("Job " ++ jobId ++ " not found or already completed"), st2)
    | none =>
      (HttpOutcome.httpError 500
          "Error cancelling job: ClusterDispatcher object has no attribute cancel_job",
        st)

/-- Frames sent over the thumbnail streaming websocket, shape
(type, data). -/
inductive Frame where
  | start (path : String) (width height : Int) (format : String)
  | progress (step : String) (progressValue : Int) (message : String)
  | error (message : String)
  | complete (width height : Int) (format : String)
  | result (status thumbnail : String) (width height : Int) (format : String)
deriving DecidableEq, Repr

/-- Outcome of the execute_script call inside generate_thumbnail_stream:
a dict with success = true and the thumbnail fields, a dict with success
falsy (carrying an optional error message), or a non-dict value. -/
inductive ScriptOutcome where
  | ok (thumbnail : String) (width height : Int) (format : String)
  | failed (errorMsg : Option String)
  | invalid
deriving DecidableEq, Repr

/-- Environment of one generate_thumbnail_stream run: whether open_file
returns True and what execute_script returns. -/
structure ThumbEnv where
  openOk : Bool
  script : ScriptOutcome
deriving DecidableEq, Repr

/-- The response dict built by a successful generate_thumbnail_stream. -/
structure ThumbResult where
  status : String
  thumbnail : String
  width : Int
  height : Int
  format : String
deriving DecidableEq, Repr

/-- The error message computed at uxp_backend.py line 639 for a failed or
invalid script result. -/
def scriptErrorMsg : ScriptOutcome → String
  | ScriptOutcome.failed (some e) => e
  | ScriptOutcome.failed none => "Unknown error"
  | _ => "Invalid result"

/-- UXPBackend.generate_thumbnail_stream (uxp_backend.py lines 498-690) with
a callback attached: returns the frames emitted through the callback, in
order, and either the response dict or the message of the RuntimeError the
function raises.  On any failure the inner handler emits an error frame and
raises; the outer except block then emits a SECOND error frame before
re-raising. -/
def generate_thumbnail_stream (env : ThumbEnv) (path : String)
    (width height : Int) (format : String) (_quality : Int) :
    List Frame × Except String ThumbResult :=
  let startF := Frame.start path width height format
  let p10 := Frame.progress "opening_file" 10 "ファイルを開いています..."
  if env.openOk = false then
    let inner := "Failed to open file: " ++ path
    let outer := "Error generating thumbnail: " ++ inner
    ([startF, p10, Frame.error inner, Frame.error outer], Except.error outer)
  else
    let p30 := Frame.progress "generating_thumbnail" 30 "サムネイルを生成しています..."
    let p50 := Frame.progress "executing_script" 50 "スクリプトを実行しています..."
    match env.script with
    | ScriptOutcome.ok thumb w h fmt =>
      let p80 := Frame.progress "processing_image" 80 "画像を処理しています..."
      ([startF, p10, p30, p50, p80, Frame.complete w h fmt],
        Except.ok { status := "ok", thumbnail := thumb, width := w, height := h,
                    format := fmt })
    | other =>
      let inner := "Failed to generate thumbnail: " ++ scriptErrorMsg other
      let outer := "Error generating thumbnail: " ++ inner
      ([startF, p10, p30, p50, Frame.error inner, Frame.error outer],
        Except.error outer)

/-- The /generateThumbnail/stream websocket handler in server.py (lines
234-306): relays every callback frame, then sends a result frame on success
or one more error frame with the caught exception message on failure. -/
def thumbnail_stream_session (env : ThumbEnv) (path : String)
    (width height : Int) (format : String) (quality : Int) : List Frame :=
  let (frames, res) := generate_thumbnail_stream env path width height format quality
  match res with
  | Except.ok r =>
    frames ++ [Frame.result r.status r.thumbnail r.width r.height r.format]
  | Except.error e =>
    frames ++ [Frame.error ("Error generating thumbnail: " ++ e)]

/-- Terminal frames in the sense of the streaming contract: complete or
error. -/
def Frame.isTerminal : Frame → Bool
  | Frame.error _ => true
  | Frame.complete _ _ _ => true
  | _ => false

/-- Number of terminal frames in a stream. -/
def countTerminal (l : List Frame) : Nat := (l.filter Frame.isTerminal).length

theorem alookup_aupdate_self {α : Type} (l : List (String × α)) (k : String)
    (v : α) : alookup (aupdate l k v) k = some v := by
  induction l with
  | nil => simp [aupdate, alookup]
  | cons hd tl ih =>
    obtain ⟨k0, v0⟩ := hd
    by_cases h : k0 = k
    · simp [aupdate, h, alookup]
    · simp [aupdate, h, alookup, ih]

theorem alookup_aupdate_ne {α : Type} (l : List (String × α)) {k k' : String}
    (h : k' ≠ k) (v : α) : alookup (aupdate l k v) k' = alookup l k' := by
  have h2 : ¬(k = k') := fun e => h e.symm
  induction l with
  | nil => simp [aupdate, alookup, h2]
  | cons hd tl ih =>
    obtain ⟨k0, v0⟩ := hd
    by_cases h0 : k0 = k
    · subst h0
      simp [aupdate, alookup, h2]
    · simp only [aupdate, if_neg h0, alookup]
      by_cases h1 : k0 = k' <;> simp [h1, ih]

theorem alookup_aremove_self {α : Type} (l : List (String × α)) (k : String) :
    alookup (aremove l k) k = none := by
  induction l with
  | nil => simp [aremove, alookup]
  | cons hd tl ih =>
    obtain ⟨k0, v0⟩ := hd
    by_cases h0 : k0 = k <;> simp [aremove, alookup, h0, ih]

theorem alookup_aremove_ne {α : Type} (l : List (String × α)) {k k' : String}
    (h : k' ≠ k) : alookup (aremove l k) k' = alookup l k' := by
  induction l with
  | nil => simp [aremove]
  | cons hd tl ih =>
    obtain ⟨k0, v0⟩ := hd
    by_cases h0 : k0 = k
    · subst h0
      have h2 : ¬(k0 = k') := fun e => h e.symm
      simp [aremove, alookup, h2, ih]
    · by_cases h1 : k0 = k' <;> simp [aremove, alookup, h0, h1, ih, h]

theorem alookup_map {α β : Type} (g : α → β) (l : List (String × α))
    (k : String) :
    alookup (l.map (fun p => (p.1, g p.2))) k = Option.map g (alookup l k) := by
  induction l with
  | nil => simp [alookup]
  | cons hd tl ih =>
    by_cases h : hd.1 = k <;> simp [alookup, h, ih]

theorem keyLtb_irrefl (k : QKey) : keyLtb k k = false := by
  obtain ⟨a, b, c⟩ := k
  simp [keyLtb]

theorem keyLtb_trans {a b c : QKey} (h1 : keyLtb a b = true)
    (h2 : keyLtb b c = true) : keyLtb a c = true := by
  obtain ⟨a1, a2, a3⟩ := a
  obtain ⟨b1, b2, b3⟩ := b
  obtain ⟨c1, c2, c3⟩ := c
  simp only [keyLtb, Bool.or_eq_true, Bool.and_eq_true, decide_eq_true_eq] at h1 h2 ⊢
  rcases h1 with h1 | ⟨e1, h1⟩ <;> rcases h2 with h2 | ⟨e2, h2⟩
  · left; omega
  · left; omega
  · left; omega
  · right
    refine ⟨by omega, ?_⟩
    rcases h1 with h1 | ⟨f1, h1⟩ <;> rcases h2 with h2 | ⟨f2, h2⟩
    · left; omega
    · left; omega
    · left; omega
    · right; exact ⟨by omega, lt_trans h1 h2⟩

theorem heapMin_cons_isSome (x : QKey) (xs : List QKey) :
    (heapMin (x :: xs)).isSome = true := by
  unfold heapMin
  cases heapMin xs with
  | none => rfl
  | some m => by_cases h : keyLtb x m = true <;> simp [h]

theorem heapMin_min {q : List QKey} {m : QKey} (hm : heapMin q = some m) :
    ∀ k ∈ q, keyLtb k m = false := by
  induction q generalizing m with
  | nil => simp [heapMin] at hm
  | cons x xs ih =>
    intro k hk
    cases hxs : heapMin xs with
    | none =>
      cases xs with
      | nil =>
        simp only [heapMin] at hm
        injection hm with hmx
        subst hmx
        rcases List.mem_cons.mp hk with rfl | h2
        · exact keyLtb_irrefl k
        · simp at h2
      | cons y ys =>
        have hs := heapMin_cons_isSome y ys
        rw [hxs] at hs
        simp at hs
    | some m' =>
      simp only [heapMin, hxs] at hm
      cases hlt : keyLtb x m' with
      | true =>
        rw [hlt] at hm
        simp only [if_true] at hm
        injection hm with hmx
        subst hmx
        rcases List.mem_cons.mp hk with rfl | h2
        · exact keyLtb_irrefl k
        · cases hk2 : keyLtb k x with
          | false => rfl
          | true =>
            have ht := keyLtb_trans hk2 hlt
            rw [ih hxs k h2] at ht
            cases ht
      | false =>
        rw [hlt] at hm
        simp only [Bool.false_eq_true, if_false] at hm
        injection hm with hmx
        subst hmx
        rcases List.mem_cons.mp hk with rfl | h2
        · exact hlt
        · exact ih hxs k h2

theorem heappop_fst {q : List QKey} {k : QKey} {rest : List QKey}
    (h : heappop q = some (k, rest)) : heapMin q = some k := by
  unfold heappop at h
  cases hq : heapMin q with
  | none => rw [hq] at h; cases h
  | some m =>
    rw [hq] at h
    simp only [Option.some.injEq, Prod.mk.injEq] at h
    rw [h.1]

/-- C7: for any two jobs both in the queue with an available capable node,
the dispatch loop never pops J2's key while J1's key is still queued when
J1 has strictly higher priority, or equal priority and strictly earlier
created_at: queue keys (-priority, created_at, id) leave the heap in
ascending lexicographic order. -/
theorem dispatch_respects_priority_order (now : Int) (st st2 : DispatcherState)
    (j1 j2 : Job) (k : QKey)
    (h1 : jobKey j1 ∈ st.job_queue)
    (hp : j2.priority < j1.priority ∨
          (j1.priority = j2.priority ∧ j1.created_at < j2.created_at))
    (hstep : job_dispatcher_step now st = (some k, st2)) :
    k ≠ jobKey j2 := by
  have hmin : heapMin st.job_queue = some k := by
    unfold job_dispatcher_step at hstep
    split at hstep
    · simp at hstep
    · split at hstep
      · simp at hstep
      · cases hpop : heappop st.job_queue with
        | none =>
          rw [hpop] at hstep
          simp at hstep
        | some pr =>
          obtain ⟨kp, rest⟩ := pr
          rw [hpop] at hstep
          simp only [Prod.mk.injEq, Option.some.injEq] at hstep
          rw [← hstep.1]
          exact heappop_fst hpop
  have hle := heapMin_min hmin (jobKey j1) h1
  intro hkeq
  have hlt : keyLtb (jobKey j1) (jobKey j2) = true := by
    simp only [keyLtb, jobKey, Bool.or_eq_true, Bool.and_eq_true,
      decide_eq_true_eq]
    rcases hp with h | ⟨he, hc⟩
    · left; omega
    · right; exact ⟨by omega, Or.inl hc⟩
  rw [hkeq] at hle
  rw [hle] at hlt
  cases hlt

/-- Concrete witness node: healthy with spare capacity. -/
def nodeW : Node :=
  { node_id := "n1", host := "localhost", port := 50052, capabilities := [],
    max_concurrent_jobs := 4, status := NodeStatus.healthy }

/-- Concrete witness job of priority 5 created at t = 0. -/
def jobW1 : Job :=
  { job_id := "a", job_type := "open_file", payload := "", priority := 5,
    created_at := 0 }

/-- Concrete witness job of priority 1 created at t = 0. -/
def jobW2 : Job :=
  { job_id := "b", job_type := "open_file", payload := "", priority := 1,
    created_at := 0 }

/-- Concrete dispatcher state with both witness jobs queued. -/
def stW : DispatcherState :=
  { nodes := [("n1", nodeW)], jobs := [("a", jobW1), ("b", jobW2)],
    job_queue := [jobKey jobW2, jobKey jobW1], is_running := true }

/-- State after one dispatch-loop iteration on stW. -/
def stW2 : DispatcherState := (job_dispatcher_step 100 stW).2

/-- Witness for C7: on stW the dispatch loop pops jobW1's key, not
jobW2's. -/
theorem dispatch_respects_priority_order_witness :
    jobKey jobW1 ∈ stW.job_queue ∧
      (((-5 : Int), (0 : Int), "a") : QKey) ≠ jobKey jobW2 :=
  ⟨by decide,
    dispatch_respects_priority_order 100 stW stW2 jobW1 jobW2 _ (by decide)
      (by decide) (by decide)⟩

/-- The job record produced by the requeue protocol. -/
def requeuedJob (j : Job) : Job :=
  { j with status := JobStatus.queued, assigned_node_id := none,
           assigned_at := none, started_at := none }

theorem requeue_one_keeps (jid : String) (job : Job) (x : String)
    (s : DispatcherState)
    (h1 : alookup s.jobs jid = some (requeuedJob job))
    (h2 : (-job.priority, job.created_at, jid) ∈ s.job_queue) :
    alookup (requeue_one s x).jobs jid = some (requeuedJob job) ∧
      (-job.priority, job.created_at, jid) ∈ (requeue_one s x).job_queue := by
  by_cases hx : x = jid
  · subst hx
    unfold requeue_one
    split
    next heq => exact ⟨h1, h2⟩
    next j heq =>
      rw [h1] at heq
      injection heq with hj
      subst hj
      split
      next hcond =>
        exfalso
        rcases hcond with hc | hc <;> simp [requeuedJob] at hc
      next hcond => exact ⟨h1, h2⟩
  · unfold requeue_one
    split
    next heq => exact ⟨h1, h2⟩
    next j heq =>
      split
      next hcond =>
        constructor
        · rw [alookup_aupdate_ne _ (fun e => hx e.symm)]
          exact h1
        · exact List.mem_cons_of_mem _ h2
      next hcond => exact ⟨h1, h2⟩

theorem requeue_fold (jid : String) (job : Job)
    (hst : job.status = JobStatus.assigned ∨ job.status = JobStatus.running) :
    ∀ (l : List String) (s : DispatcherState),
      ((jid ∈ l ∧ alookup s.jobs jid = some job) ∨
        (alookup s.jobs jid = some (requeuedJob job) ∧
          (-job.priority, job.created_at, jid) ∈ s.job_queue)) →
      alookup (l.foldl requeue_one s).jobs jid = some (requeuedJob job) ∧
        (-job.priority, job.created_at, jid) ∈ (l.foldl requeue_one s).job_queue := by
  intro l
  induction l with
  | nil =>
    intro s h
    rcases h with ⟨hmem, _⟩ | hP
    · simp at hmem
    · exact hP
  | cons x xs ih =>
    intro s h
    rcases h with ⟨hmem, hlook⟩ | hP
    · by_cases hx : x = jid
      · subst hx
        have hP2 : alookup (requeue_one s x).jobs x = some (requeuedJob job) ∧
            (-job.priority, job.created_at, x) ∈ (requeue_one s x).job_queue := by
          unfold requeue_one
          split
          next heq =>
            rw [hlook] at heq
            cases heq
          next j heq =>
            rw [hlook] at heq
            injection heq with hj2
            subst hj2
            rw [if_pos hst]
            exact ⟨alookup_aupdate_self _ _ _, List.mem_cons_self _ _⟩
        exact ih _ (Or.inr hP2)
      · rcases List.mem_cons.mp hmem with rfl | hmem2
        · exact absurd rfl hx
        · have hlook2 : alookup (requeue_one s x).jobs jid = some job := by
            unfold requeue_one
            split
            next heq => exact hlook
            next j heq =>
              split
              next hcond =>
                rw [alookup_aupdate_ne _ (fun e => hx e.symm)]
                exact hlook
              next hcond => exact hlook
          exact ih _ (Or.inl ⟨hmem2, hlook2⟩)
    · exact ih _ (Or.inr (requeue_one_keeps jid job x s hP.1 hP.2))

/-- C8: requeuing an ASSIGNED or RUNNING job of a lost node resets
assigned_node_id, assigned_at and started_at to null, sets the status back
to QUEUED, and pushes the ordering key built from the job's ORIGINAL
created_at; such a key sorts strictly before any same-priority key with a
later created_at. -/
theorem requeue_resets_job_and_preserves_key (st : DispatcherState)
    (nid jid : String) (node : Node) (job : Job)
    (hn : alookup st.nodes nid = some node)
    (hj : alookup st.jobs jid = some job)
    (hmem : jid ∈ node.current_jobs)
    (hst : job.status = JobStatus.assigned ∨ job.status = JobStatus.running) :
    alookup (requeue_node_jobs st nid).jobs jid =
      some { job with status := JobStatus.queued, assigned_node_id := none,
                      assigned_at := none, started_at := none } ∧
      (-job.priority, job.created_at, jid) ∈ (requeue_node_jobs st nid).job_queue ∧
      (∀ (c2 : Int) (id2 : String), job.created_at < c2 →
        keyLtb (-job.priority, job.created_at, jid) (-job.priority, c2, id2) = true) := by
  have hmain := requeue_fold jid job hst node.current_jobs st (Or.inl ⟨hmem, hj⟩)
  unfold requeue_node_jobs
  rw [hn]
  refine ⟨hmain.1, hmain.2, ?_⟩
  intro c2 id2 hc
  simp only [keyLtb, Bool.or_eq_true, Bool.and_eq_true, decide_eq_true_eq]
  right
  exact ⟨trivial, Or.inl hc⟩

/-- Concrete witness node owning the in-flight job "r". -/
def nodeR : Node :=
  { node_id := "n1", host := "localhost", port := 50052, capabilities := [],
    max_concurrent_jobs := 4, status := NodeStatus.unhealthy, active_jobs := 1,
    current_jobs := ["r"] }

/-- Concrete witness job assigned to nodeR. -/
def jobR : Job :=
  { job_id := "r", job_type := "open_file", payload := "", priority := 2,
    created_at := 10, status := JobStatus.assigned, assigned_at := some 20,
    assigned_node_id := some "n1" }

/-- Concrete dispatcher state for the requeue witness. -/
def stR : DispatcherState :=
  { nodes := [("n1", nodeR)], jobs := [("r", jobR)], job_queue := [],
    is_running := true }

/-- Witness for C8: requeuing nodeR's jobs resets jobR and re-pushes its
original key. -/
theorem requeue_resets_job_witness :
    (jobR.status = JobStatus.assigned ∨ jobR.status = JobStatus.running) ∧
      alookup (requeue_node_jobs stR "n1").jobs "r" =
        some { jobR with status := JobStatus.queued, assigned_node_id := none,
                         assigned_at := none, started_at := none } ∧
      ((-2 : Int), (10 : Int), "r") ∈ (requeue_node_jobs stR "n1").job_queue :=
  ⟨Or.inl rfl,
    (requeue_resets_job_and_preserves_key stR "n1" "r" nodeR jobR (by decide)
        (by decide) (by decide) (Or.inl rfl)).1,
    (requeue_resets_job_and_preserves_key stR "n1" "r" nodeR jobR (by decide)
        (by decide) (by decide) (Or.inl rfl)).2.1⟩

/-- The dispatcher operations named by the in-flight accounting claim. -/
inductive DispatcherOp where
  | assign (jid nid : String) (sendOk : Bool) (now : Int)
  | execute (jid nid : String) (success : Bool) (startT endT : Int)
      (execResult : String)
  | requeue (nid : String)
  | cleanupJobs (now : Int)
  | cleanupNodes (now : Int)
deriving DecidableEq, Repr

/-- Apply one dispatcher operation to the state (for the cleanup pass the
state reached when the pass returns or raises). -/
def applyOp : DispatcherOp → DispatcherState → DispatcherState
  | DispatcherOp.assign jid nid sendOk now, st =>
    assign_job_to_node now sendOk st jid nid
  | DispatcherOp.execute jid nid success t1 t2 r, st =>
    simulate_job_execution success t1 t2 r st jid nid
  | DispatcherOp.requeue nid, st => requeue_node_jobs st nid
  | DispatcherOp.cleanupJobs now, st => cleanup_old_jobs now st
  | DispatcherOp.cleanupNodes now, st => (cleanup_unhealthy_nodes now st).1

/-- The in-flight accounting invariant: every registered node's active_jobs
counter equals the cardinality of its (duplicate-free) current_jobs set. -/
def NodeInv (st : DispatcherState) : Prop :=
  ∀ nid node, alookup st.nodes nid = some node →
    node.current_jobs.Nodup ∧ node.active_jobs = node.current_jobs.length

/-- Side conditions under which an operation is issued by the dispatcher:
an assignment targets a job not already recorded in-flight on the node, and
an execution finishes a job recorded in-flight on its node.  (Requeue does
not remove requeued jobs from the lost node's current_jobs, so after a
requeue a re-assignment of the same job to the same node violates the
assign condition — see the counterexample.) -/
def OpOk (st : DispatcherState) : DispatcherOp → Prop
  | DispatcherOp.assign jid nid _ _ =>
    ∀ node, alookup st.nodes nid = some node → jid ∉ node.current_jobs
  | DispatcherOp.execute jid nid _ _ _ _ =>
    ∀ node, alookup st.nodes nid = some node → jid ∈ node.current_jobs
  | _ => True

theorem requeue_one_nodes (s : DispatcherState) (x : String) :
    (requeue_one s x).nodes = s.nodes := by
  unfold requeue_one
  split
  · rfl
  · split <;> rfl

theorem foldl_requeue_one_nodes (l : List String) :
    ∀ s : DispatcherState, (l.foldl requeue_one s).nodes = s.nodes := by
  induction l with
  | nil => intro s; rfl
  | cons x xs ih =>
    intro s
    rw [List.foldl_cons, ih, requeue_one_nodes]

theorem requeue_node_jobs_nodes (st : DispatcherState) (nid : String) :
    (requeue_node_jobs st nid).nodes = st.nodes := by
  unfold requeue_node_jobs
  split
  · rfl
  · exact foldl_requeue_one_nodes _ _

theorem cleanup_go_nodeinv (now : Int) (l : List (String × Node)) :
    ∀ s : DispatcherState, NodeInv s →
      NodeInv (cleanup_unhealthy_nodes_go now l s).1 := by
  induction l with
  | nil => intro s h; exact h
  | cons hd tl ih =>
    intro s h
    obtain ⟨nid, node⟩ := hd
    unfold cleanup_unhealthy_nodes_go
    split
    · split
      · intro nid2 node2 h2
        simp only at h2
        by_cases he : nid2 = nid
        · subst he
          rw [alookup_aremove_self] at h2
          cases h2
        · rw [alookup_aremove_ne _ he] at h2
          exact h nid2 node2 h2
      · exact h
    · exact ih s h

/-- C9 (amended): after an assignment of a job not already recorded
in-flight on the target node, a completion or failure of a job recorded
in-flight on its node, an assignment rollback, a requeue on node loss, or a
cleanup pass, every registered node's active_jobs counter equals the
cardinality of its current_jobs set.  (Requeue leaves requeued jobs inside
the lost node's current_jobs, so re-assigning such a job to the same node
violates the assignment side condition and the equality — see the
counterexample.) -/
theorem active_jobs_matches_inflight (st : DispatcherState) (op : DispatcherOp)
    (hinv : NodeInv st) (hok : OpOk st op) (nid2 : String) (node2 : Node)
    (h2 : alookup (applyOp op st).nodes nid2 = some node2) :
    node2.current_jobs.Nodup ∧
      node2.active_jobs = node2.current_jobs.length := by
  cases op with
  | assign jid nid sendOk now =>
    cases hj : alookup st.jobs jid with
    | none =>
      simp only [applyOp, assign_job_to_node, hj] at h2
      exact hinv nid2 node2 h2
    | some job =>
      cases hn : alookup st.nodes nid with
      | none =>
        simp only [applyOp, assign_job_to_node, hj, hn] at h2
        exact hinv nid2 node2 h2
      | some node =>
        have hjm : jid ∉ node.current_jobs := hok node hn
        obtain ⟨hnd, hlen⟩ := hinv nid node hn
        simp only [applyOp, assign_job_to_node, hj, hn] at h2
        split at h2
        · by_cases he : nid2 = nid
          · subst he
            rw [alookup_aupdate_self] at h2
            injection h2 with h3
            subst h3
            constructor
            · simp only [setAdd, if_neg hjm]
              exact List.nodup_cons.mpr ⟨hjm, hnd⟩
            · simp only [setAdd, if_neg hjm, List.length_cons]
              push_cast
              omega
          · rw [alookup_aupdate_ne _ he] at h2
            exact hinv nid2 node2 h2
        · by_cases he : nid2 = nid
          · subst he
            rw [alookup_aupdate_self] at h2
            injection h2 with h3
            subst h3
            constructor
            · simp only [setRemove, setAdd, if_neg hjm, List.erase_cons_head]
              exact hnd
            · simp only [setRemove, setAdd, if_neg hjm, List.erase_cons_head]
              omega
          · rw [alookup_aupdate_ne _ he, alookup_aupdate_ne _ he] at h2
            exact hinv nid2 node2 h2
  | execute jid nid success t1 t2 r =>
    cases hj : alookup st.jobs jid with
    | none =>
      simp only [applyOp, simulate_job_execution, hj] at h2
      exact hinv nid2 node2 h2
    | some job =>
      cases hn : alookup st.nodes nid with
      | none =>
        simp only [applyOp, simulate_job_execution, hj, hn] at h2
        exact hinv nid2 node2 h2
      | some node =>
        have hjm : jid ∈ node.current_jobs := hok node hn
        obtain ⟨hnd, hlen⟩ := hinv nid node hn
        have hpos : 0 < node.current_jobs.length := List.length_pos_of_mem hjm
        have herase : (node.current_jobs.erase jid).length =
            node.current_jobs.length - 1 := List.length_erase_of_mem hjm
        cases success <;>
          simp only [applyOp, simulate_job_execution, hj, hn] at h2 <;>
          by_cases he : nid2 = nid
        · subst he
          rw [alookup_aupdate_self] at h2
          injection h2 with h3
          subst h3
          refine ⟨hnd.erase jid, ?_⟩
          simp only [setRemove, herase]
          push_cast
          omega
        · rw [alookup_aupdate_ne _ he] at h2
          exact hinv nid2 node2 h2
        · subst he
          rw [alookup_aupdate_self] at h2
          injection h2 with h3
          subst h3
          refine ⟨hnd.erase jid, ?_⟩
          simp only [setRemove, herase]
          push_cast
          omega
        · rw [alookup_aupdate_ne _ he] at h2
          exact hinv nid2 node2 h2
  | requeue nid =>
    have hre : (applyOp (DispatcherOp.requeue nid) st).nodes = st.nodes :=
      requeue_node_jobs_nodes st nid
    rw [hre] at h2
    exact hinv nid2 node2 h2
  | cleanupJobs now =>
    exact hinv nid2 node2 h2
  | cleanupNodes now =>
    exact cleanup_go_nodeinv now st.nodes st hinv nid2 node2 h2

/-- Concrete healthy node with capacity 2 for the accounting trace. -/
def nodeC9 : Node :=
  { node_id := "n1", host := "localhost", port := 50052, capabilities := [],
    max_concurrent_jobs := 2, status := NodeStatus.healthy }

/-- Concrete job for the accounting trace. -/
def jobC9 : Job :=
  { job_id := "j1", job_type := "open_file", payload := "", priority := 0,
    created_at := 0 }

/-- Concrete dispatcher state: one healthy node, one queued job. -/
def stC9 : DispatcherState :=
  { nodes := [("n1", nodeC9)], jobs := [("j1", jobC9)],
    job_queue := [jobKey jobC9], is_running := true }

/-- Counterexample for C9 as stated: dispatch j1 to n1, lose the node
(requeue leaves j1 inside n1.current_jobs), then let the dispatch loop
assign the requeued j1 to n1 again — active_jobs reaches 2 while the
in-flight set still has cardinality 1. -/
theorem active_jobs_counterexample :
    (alookup (job_dispatcher_step 2
        (requeue_node_jobs (job_dispatcher_step 1 stC9).2 "n1")).2.nodes "n1").map
        Node.active_jobs = some 2 ∧
      (alookup (job_dispatcher_step 2
          (requeue_node_jobs (job_dispatcher_step 1 stC9).2 "n1")).2.nodes "n1").map
          (fun n => (n.current_jobs.length : Int)) = some 1 ∧
      (2 : Int) ≠ (1 : Int) := by decide

/-- Node of the C9 witness state. -/
def nodeV : Node :=
  { node_id := "n1", host := "localhost", port := 50052, capabilities := [],
    max_concurrent_jobs := 2, status := NodeStatus.healthy }

/-- Job of the C9 witness state. -/
def jobV : Job :=
  { job_id := "j1", job_type := "open_file", payload := "", priority := 0,
    created_at := 0 }

/-- C9 witness state: one empty healthy node, one queued job. -/
def stV : DispatcherState :=
  { nodes := [("n1", nodeV)], jobs := [("j1", jobV)], job_queue := [],
    is_running := true }

/-- The node record produced by assigning jobV to nodeV. -/
def nodeVafter : Node := { nodeV with active_jobs := 1, current_jobs := ["j1"] }

/-- Witness for the amended C9: assigning j1 to the empty node n1 keeps
active_jobs equal to the in-flight cardinality. -/
theorem active_jobs_matches_inflight_witness :
    nodeVafter.current_jobs.Nodup ∧
      nodeVafter.active_jobs = nodeVafter.current_jobs.length :=
  active_jobs_matches_inflight stV (DispatcherOp.assign "j1" "n1" true 5)
    (by
      intro nid node h
      simp only [stV, alookup] at h
      split at h
      · injection h with h3
        subst h3
        exact ⟨by decide, by decide⟩
      · cases h)
    (by
      intro node h
      simp only [stV, alookup] at h
      split at h
      · injection h with h3
        subst h3
        decide
      · cases h)
    "n1" nodeVafter (by decide)

/-- C10: while the dispatcher is running, stop() cancels every QUEUED,
ASSIGNED or RUNNING job — status CANCELLED, completed_at = now,
error_message "Dispatcher shutdown" — and leaves every terminal job's
record unchanged. -/
theorem stop_cancels_only_nonterminal (st : DispatcherState) (now : Int)
    (id : String) (j : Job)
    (hrun : st.is_running = true)
    (hj : alookup st.jobs id = some j) :
    ((j.status = JobStatus.queued ∨ j.status = JobStatus.assigned ∨
        j.status = JobStatus.running) →
      alookup (dispatcherStop now st).jobs id =
        some { j with status := JobStatus.cancelled, completed_at := some now,
                      error_message := some "Dispatcher shutdown" }) ∧
      ((j.status = JobStatus.completed ∨ j.status = JobStatus.failed ∨
          j.status = JobStatus.cancelled) →
        alookup (dispatcherStop now st).jobs id = some j) := by
  have hmap : alookup (dispatcherStop now st).jobs id =
      some (stopCancel now j) := by
    unfold dispatcherStop
    rw [hrun]
    rw [if_neg (by decide)]
    show alookup (st.jobs.map (fun p => (p.1, stopCancel now p.2))) id = _
    rw [alookup_map, hj]
    rfl
  constructor
  · intro hnt
    rw [hmap]
    unfold stopCancel
    rw [if_pos hnt]
  · intro ht
    have hcond : ¬(j.status = JobStatus.queued ∨ j.status = JobStatus.assigned ∨
        j.status = JobStatus.running) := by
      rcases ht with h | h | h <;> rw [h] <;> decide
    rw [hmap]
    unfold stopCancel
    rw [if_neg hcond]

/-- A running job used by the stop() witness. -/
def jobRun : Job :=
  { job_id := "run1", job_type := "export_layer", payload := "",
    status := JobStatus.running, created_at := 3, started_at := some 4 }

/-- Dispatcher state for the stop() witness. -/
def stS : DispatcherState :=
  { nodes := [], jobs := [("run1", jobRun)], job_queue := [],
    is_running := true }

/-- Witness for C10: stopping stS cancels the running job with the shutdown
message. -/
theorem stop_cancels_witness :
    stS.is_running = true ∧
      alookup (dispatcherStop 50 stS).jobs "run1" =
        some { jobRun with status := JobStatus.cancelled,
                           completed_at := some 50,
                           error_message := some "Dispatcher shutdown" } :=
  ⟨rfl,
    (stop_cancels_only_nonterminal stS 50 "run1" jobRun rfl (by decide)).1
      (Or.inr (Or.inr rfl))⟩

/-- DispatcherConfig defaults from dispatcher.py (timeouts in seconds). -/
structure DispatcherConfig where
  node_timeout : Int := 60
  job_timeout : Int := 300
  health_check_interval : Int := 30
  cleanup_interval : Int := 3600
  max_retries : Int := 3
deriving DecidableEq, Repr

/-- Empty running dispatcher state behind the HTTP layer. -/
def stH : DispatcherState :=
  { nodes := [], jobs := [], job_queue := [], is_running := true }

/-- A valid submit_job request body. -/
def reqH : JobRequest :=
  { job_type := "export_document", payload := "", priority := 0 }

/-- C1: with cluster mode enabled, POST /submit_job with a valid job type,
payload and priority does NOT enqueue the job: the handler's call to
cluster_dispatcher.add_job raises AttributeError (the class defines no such
method) and the caller receives HTTP 500; the job table and the priority
queue are untouched. -/
theorem submit_job_is_broken :
    submit_job true stH reqH "job-1" 100 =
      (HttpOutcome.httpError 500
        "Error submitting job: ClusterDispatcher object has no attribute add_job",
        stH) ∧
      alookup stH.jobs "job-1" = none ∧ stH.job_queue = [] ∧
      "add_job" ∉ clusterDispatcherMethods := by
  exact ⟨rfl, rfl, rfl, by decide⟩

/-- A job already in the terminal COMPLETED state. -/
def jobDone : Job :=
  { job_id := "j9", job_type := "open_file", payload := "",
    status := JobStatus.completed, created_at := 0, completed_at := some 9 }

/-- Dispatcher state holding only the completed job. -/
def stH5 : DispatcherState :=
  { nodes := [], jobs := [("j9", jobDone)], job_queue := [],
    is_running := true }

/-- C5: POST /cancel_job/{id} on an already-terminal job is surfaced to the
caller as an error: the handler's call to cluster_dispatcher.cancel_job
raises AttributeError (the class defines no such method) and the caller
receives HTTP 500 instead of the job's terminal status with an
already-terminal indicator. -/
theorem cancel_job_terminal_is_error :
    (alookup stH5.jobs "j9").map Job.status = some JobStatus.completed ∧
      cancel_job true stH5 "j9" =
        (HttpOutcome.httpError 500
          "Error cancelling job: ClusterDispatcher object has no attribute cancel_job",
          stH5) ∧
      "cancel_job" ∉ clusterDispatcherMethods := by
  exact ⟨rfl, rfl, by decide⟩

/-- One node-loss cycle on the concrete trace state: assign j1 to n1,
then lose n1 and requeue. -/
def lossCycle (t : Int) (st : DispatcherState) : DispatcherState :=
  requeue_node_jobs (assign_job_to_node t true st "j1" "n1") "n1"

/-- C2: the requeue protocol keeps no retry counter (the Job record has no
such field) and never consults max_retries (default 3): after four
consecutive node losses — more than the configured cap — the job is still
QUEUED with no error message, instead of FAILED with retries-exhausted. -/
theorem requeue_has_no_retry_cap :
    (4 : Int) > ({} : DispatcherConfig).max_retries ∧
      (alookup (lossCycle 4 (lossCycle 3 (lossCycle 2 (lossCycle 1 stC9)))).jobs
          "j1").map Job.status = some JobStatus.queued ∧
      (alookup (lossCycle 4 (lossCycle 3 (lossCycle 2 (lossCycle 1 stC9)))).jobs
          "j1").map Job.error_message = some none := by
  exact ⟨by decide, by decide, by decide⟩

/-- Streaming environment in which open_file fails. -/
def envFail : ThumbEnv := { openOk := false, script := ScriptOutcome.invalid }

/-- C3: when the underlying operation fails, the streaming thumbnail job
emits TWO error frames from the backend (inner handler plus outer except
block), and a third from the HTTP layer — not exactly one terminal
frame. -/
theorem thumbnail_failure_emits_multiple_terminal_frames :
    countTerminal (generate_thumbnail_stream envFail "missing.psd" 256 256
        "jpeg" 80).1 = 2 ∧
      countTerminal (thumbnail_stream_session envFail "missing.psd" 256 256
        "jpeg" 80) = 3 ∧ ¬(2 = 1) := by
  exact ⟨by decide, by decide, by decide⟩

/-- The (step, percent) pairs of the progress frames of a stream. -/
def progressSteps (l : List Frame) : List (String × Int) :=
  l.filterMap (fun f =>
    match f with
    | Frame.progress s v _ => some (s, v)
    | _ => none)

/-- Streaming environment of a successful run. -/
def envOk : ThumbEnv :=
  { openOk := true, script := ScriptOutcome.ok "imgdata" 256 192 "jpeg" }

/-- Counterexample for C4 as stated: the fourth progress frame of a
successful 256x256 jpeg stream carries step "processing_image", not
"encoding_image". -/
theorem thumbnail_fourth_step_is_processing_image :
    progressSteps (generate_thumbnail_stream envOk "a.psd" 256 256 "jpeg" 80).1 =
      [("opening_file", 10), ("generating_thumbnail", 30),
       ("executing_script", 50), ("processing_image", 80)] ∧
      progressSteps (generate_thumbnail_stream envOk "a.psd" 256 256 "jpeg" 80).1 ≠
        [("opening_file", 10), ("generating_thumbnail", 30),
         ("executing_script", 50), ("encoding_image", 80)] := by
  exact ⟨by decide, by decide⟩

/-- C4 (amended): a successful streaming thumbnail job for
width 256, height 256, format "jpeg" emits, in order: a start frame with
the declared inputs, progress frames ("opening_file", 10),
("generating_thumbnail", 30), ("executing_script", 50),
("processing_image", 80) — the numeric field is named "progress" in the
frame payload — then a complete frame carrying width, height and format,
with no frame after complete. -/
theorem thumbnail_success_frame_sequence (path thumb fmt : String)
    (w h q : Int) :
    (generate_thumbnail_stream
        { openOk := true, script := ScriptOutcome.ok thumb w h fmt }
        path 256 256 "jpeg" q).1 =
      [Frame.start path 256 256 "jpeg",
       Frame.progress "opening_file" 10 "ファイルを開いています...",
       Frame.progress "generating_thumbnail" 30 "サムネイルを生成しています...",
       Frame.progress "executing_script" 50 "スクリプトを実行しています...",
       Frame.progress "processing_image" 80 "画像を処理しています...",
       Frame.complete w h fmt] := rfl

/-- Stale unhealthy node u1 (first in the registry). -/
def nodeU1 : Node :=
  { node_id := "u1", host := "h1", port := 1, capabilities := [],
    max_concurrent_jobs := 1, status := NodeStatus.unhealthy,
    last_heartbeat := 0 }

/-- Stale unhealthy node u2 (second in the registry). -/
def nodeU2 : Node :=
  { node_id := "u2", host := "h2", port := 2, capabilities := [],
    max_concurrent_jobs := 1, status := NodeStatus.unhealthy,
    last_heartbeat := 0 }

/-- Registry with two stale unhealthy nodes. -/
def stC6 : DispatcherState :=
  { nodes := [("u1", nodeU1), ("u2", nodeU2)], jobs := [], job_queue := [],
    is_running := true }

/-- C6: a cleanup pass over two stale Unhealthy nodes does not complete
without error: it removes the first node, then raises NameError on the
orphaned `node.current_jobs.remove(job_id)` line, leaving the second stale
Unhealthy node registered. -/
theorem cleanup_pass_raises_and_strands_nodes :
    (cleanup_unhealthy_nodes 7200 stC6).2 =
      some "NameError: name job_id is not defined" ∧
      alookup (cleanup_unhealthy_nodes 7200 stC6).1.nodes "u1" = none ∧
      alookup (cleanup_unhealthy_nodes 7200 stC6).1.nodes "u2" = some nodeU2 := by
  exact ⟨by decide, by decide, by decide⟩

end PhotoshopMCP